import Mathlib

/-!
Verification of the Database Routing & Temporal Resolution layer of the
unified-montrg-api repository.  The Python services are shallowly embedded:
pure date/string manipulation becomes Lean functions over `Nat`/`List Char`,
`datetime` values become explicit records, raising `ValueError`/`OverflowError`
becomes an `Except`/`Option` result.  CPython standard-library routines used by
the services (`datetime` construction and arithmetic, `str` methods,
`datetime.strptime` for the fixed formats appearing in the source, and
`datetime.fromisoformat`) are modelled by executable Lean definitions that
follow their documented behaviour.
-/

namespace UnifiedMontrg

/-! ## Calendar primitives (model of the proleptic Gregorian calendar of
`datetime`) -/

/-- Leap-year rule of the proleptic Gregorian calendar used by Python
`datetime`. -/
def isLeapYear (y : Nat) : Bool :=
  (y % 4 == 0 && y % 100 != 0) || y % 400 == 0

/-- Number of days in a month (Python `datetime` semantics). -/
def daysInMonth (y m : Nat) : Nat :=
  if m = 2 then (if isLeapYear y then 29 else 28)
  else if m = 4 ∨ m = 6 ∨ m = 9 ∨ m = 11 then 30
  else 31

/-- A calendar date `(year, month, day)`. -/
structure Date where
  year : Nat
  month : Nat
  day : Nat
deriving DecidableEq, Repr

/-- Validity of a date under Python `datetime`'s constructor
(`MINYEAR = 1`, `MAXYEAR = 9999`). -/
def Date.isValid (d : Date) : Bool :=
  1 ≤ d.year && d.year ≤ 9999 && 1 ≤ d.month && d.month ≤ 12 &&
    1 ≤ d.day && d.day ≤ daysInMonth d.year d.month

/-- Day after `d` by calendar arithmetic, as produced by
`date + timedelta(days=1)` on a valid date. -/
def nextDay (d : Date) : Date :=
  if d.day < daysInMonth d.year d.month then ⟨d.year, d.month, d.day + 1⟩
  else if d.month < 12 then ⟨d.year, d.month + 1, 1⟩
  else ⟨d.year + 1, 1, 1⟩

/-- Day before `d` by calendar arithmetic (meaningful for valid dates other
than `date.min`; the raising subtraction is `prevDayE` below). -/
def prevDay (d : Date) : Date :=
  if 1 < d.day then ⟨d.year, d.month, d.day - 1⟩
  else if 1 < d.month then ⟨d.year, d.month - 1, daysInMonth d.year (d.month - 1)⟩
  else ⟨d.year - 1, 12, 31⟩

/-- `dt - timedelta(days=1)` on the date component: raises `OverflowError`
(modelled as `none`) when the date is already `datetime.min`'s date
`0001-01-01`, since the result would fall below the representable range. -/
def prevDayE (d : Date) : Option Date :=
  if d.year = 1 ∧ d.month = 1 ∧ d.day = 1 then none else some (prevDay d)

/-- Days in all years strictly before year `y` (proleptic Gregorian). -/
def daysBeforeYear (y : Nat) : Nat :=
  365 * (y - 1) + (y - 1) / 4 - (y - 1) / 100 + (y - 1) / 400

/-- Days in the months of year `y` strictly before month `m`. -/
def daysBeforeMonth (y m : Nat) : Nat :=
  (List.range (m - 1)).foldl (fun acc i => acc + daysInMonth y (i + 1)) 0

/-- Rata-die ordinal of a date: `date(1, 1, 1)` is day 1, matching Python's
`date.toordinal()`. -/
def rataDie (d : Date) : Nat :=
  daysBeforeYear d.year + daysBeforeMonth d.year d.month + d.day

/-- Weekday with Monday = 0 … Sunday = 6, matching Python's
`date.weekday()`. -/
def pyWeekday (d : Date) : Nat :=
  (rataDie d + 6) % 7

/-! ## `datetime` values

A timezone is either a named `zoneinfo` zone or a fixed UTC offset in
seconds (the only two kinds produced by the embedded services).  A
`PyDateTime` is timezone-naive when `tz = none`. -/

inductive Tz where
  | zone (nm : String)
  | utcOffset (seconds : Int)
deriving DecidableEq, Repr

/-- A Python `datetime` value: components plus optional timezone. -/
structure PyDateTime where
  year : Nat
  month : Nat
  day : Nat
  hour : Nat
  minute : Nat
  second : Nat
  micro : Nat
  tz : Option Tz
deriving DecidableEq, Repr

/-- Midnight of a calendar date, naive (`datetime(y, m, d)`). -/
def dtMidnight (y m d : Nat) : PyDateTime := ⟨y, m, d, 0, 0, 0, 0, none⟩

/-- The date component of a `datetime` (`.date()`). -/
def PyDateTime.dateOf (t : PyDateTime) : Date := ⟨t.year, t.month, t.day⟩

/-- Model of the validating `datetime(y, m, d)` constructor: `none` means the
constructor raises `ValueError`. -/
def mkPyDate (y m d : Nat) : Option PyDateTime :=
  if Date.isValid ⟨y, m, d⟩ then some (dtMidnight y m d) else none

/-- Component-wise lexicographic strict order on `datetime` values, as Python
compares two naive (or two equally-anchored aware) datetimes.  The `tz` field
is not consulted; the embedded services only compare naive with naive. -/
def PyDateTime.lt (a b : PyDateTime) : Bool :=
  a.year < b.year || (a.year = b.year &&
    (a.month < b.month || (a.month = b.month &&
      (a.day < b.day || (a.day = b.day &&
        (a.hour < b.hour || (a.hour = b.hour &&
          (a.minute < b.minute || (a.minute = b.minute &&
            (a.second < b.second || (a.second = b.second &&
              a.micro < b.micro)))))))))))

/-- `dt + timedelta(days=1)`: Python adds one calendar day to the naive
components, keeping `tzinfo`; `none` models the `OverflowError` raised past
`date.max`. -/
def PyDateTime.addOneDay (t : PyDateTime) : Option PyDateTime :=
  let d := nextDay t.dateOf
  if d.year ≤ 9999 then
    some { t with year := d.year, month := d.month, day := d.day }
  else none

/-! ## Character-list helpers (models of the Python `str` methods used by the
services; everything operates on `String.data`) -/

/-- `str.isdigit()` restricted to ASCII digits (all keys in scope are
ASCII). -/
def allDigits (cs : List Char) : Bool := !cs.isEmpty && cs.all Char.isDigit

/-- Numeric value of a digit string, as `int(s)` on an all-digit `s`. -/
def digitsToNat (cs : List Char) : Nat :=
  cs.foldl (fun acc c => acc * 10 + (c.toNat - 48)) 0

/-- ASCII `str.upper()`. -/
def upperCL (cs : List Char) : List Char := cs.map Char.toUpper

/-- ASCII `str.lower()`. -/
def lowerCL (cs : List Char) : List Char := cs.map Char.toLower

/-- ASCII whitespace, for `str.strip()`. -/
def isPySpace (c : Char) : Bool :=
  c = ' ' || c = '\t' || c = '\n' || c = '\r' || c = '\x0b' || c = '\x0c'

/-- `str.strip()` (ASCII whitespace). -/
def stripCL (cs : List Char) : List Char :=
  ((cs.dropWhile isPySpace).reverse.dropWhile isPySpace).reverse

/-- `str.replace(pat, rep)` for a non-empty `pat` (replaces every
non-overlapping occurrence, left to right).  The first argument is
recursion fuel, instantiated with the length of the subject. -/
def replaceAux (pat rep : List Char) : Nat → List Char → List Char
  | _, [] => []
  | 0, cs => cs
  | fuel + 1, c :: cs =>
    if pat.isPrefixOf (c :: cs) then
      rep ++ replaceAux pat rep fuel ((c :: cs).drop pat.length)
    else
      c :: replaceAux pat rep fuel cs

/-- `str.replace(pat, rep)` for non-empty `pat`. -/
def replaceCL (pat rep cs : List Char) : List Char :=
  replaceAux pat rep cs.length cs

example : replaceCL "Z".data "+00:00".data "2024Z".data = "2024+00:00".data := by decide
example : replaceCL "_DATABASE_URL".data [] "CKP_CHILLER_DATABASE_URL".data
    = "CKP_CHILLER".data := by decide
example : replaceCL "_DATABASE_URL".data [] "ckp_chiller_database_url".data
    = "ckp_chiller_database_url".data := by decide

/-! ## Error values

Python exceptions raised by the embedded services. -/

inductive PyErr where
  | valueError (msg : String)
  | overflowError
deriving DecidableEq, Repr

deriving instance DecidableEq for Except

/-- The `ValueError` message of `_resolve_date_key` for a malformed key; it
names the supported formats. -/
def dateKeyFormatMsg : String :=
  "date_key must be numeric in formats YYYY, YYYYMM, or YYYYMMDD"

/-! ## `_resolve_date_key` (src/app/services/banb_data.py lines 131-154,
identical in src/app/services/rtf_data.py)

```python
def _resolve_date_key(date_key: str) -> Tuple[datetime, datetime]:
    if len(date_key) not in (4, 6, 8) or not date_key.isdigit():
        raise ValueError("date_key must be numeric in formats YYYY, YYYYMM, or YYYYMMDD")
    year = int(date_key[:4])
    if len(date_key) == 4:
        start = datetime(year, 1, 1); end = datetime(year + 1, 1, 1)
    elif len(date_key) == 6:
        month = int(date_key[4:6])
        start = datetime(year, month, 1)
        end = datetime(year + 1, 1, 1) if month == 12 else datetime(year, month + 1, 1)
    else:
        month = int(date_key[4:6]); day = int(date_key[6:8])
        start = datetime(year, month, day); end = start + timedelta(days=1)
    return start, end
```

A failing `datetime(...)` constructor raises `ValueError` with a
component-specific message; we model every such message as
`"datetime component out of range"`. -/

/-- The `ValueError` raised by a `datetime` constructor on out-of-range
components (modelled with one fixed message). -/
def badDatetimeErr : PyErr := .valueError "datetime component out of range"

/-- Lift the validating `datetime` constructor into `Except`. -/
def pyDatetimeE (y m d : Nat) : Except PyErr PyDateTime :=
  match mkPyDate y m d with
  | some t => .ok t
  | none => .error badDatetimeErr

def resolve_date_key (dateKey : String) : Except PyErr (PyDateTime × PyDateTime) :=
  let cs := dateKey.data
  if ¬(cs.length = 4 ∨ cs.length = 6 ∨ cs.length = 8) ∨ ¬allDigits cs then
    .error (.valueError dateKeyFormatMsg)
  else
    let year := digitsToNat (cs.take 4)
    if cs.length = 4 then
      match pyDatetimeE year 1 1, pyDatetimeE (year + 1) 1 1 with
      | .ok start, .ok stop => .ok (start, stop)
      | .error e, _ => .error e
      | _, .error e => .error e
    else if cs.length = 6 then
      let month := digitsToNat ((cs.drop 4).take 2)
      match pyDatetimeE year month 1,
          (if month = 12 then pyDatetimeE (year + 1) 1 1
           else pyDatetimeE year (month + 1) 1) with
      | .ok start, .ok stop => .ok (start, stop)
      | .error e, _ => .error e
      | _, .error e => .error e
    else
      let month := digitsToNat ((cs.drop 4).take 2)
      let day := digitsToNat ((cs.drop 6).take 2)
      match pyDatetimeE year month day with
      | .error e => .error e
      | .ok start =>
        match start.addOneDay with
        | some stop => .ok (start, stop)
        | none => .error .overflowError


example : resolve_date_key "2024" = .ok (dtMidnight 2024 1 1, dtMidnight 2025 1 1) := by decide
example : resolve_date_key "202412" = .ok (dtMidnight 2024 12 1, dtMidnight 2025 1 1) := by decide
example : resolve_date_key "20241205" = .ok (dtMidnight 2024 12 5, dtMidnight 2024 12 6) := by decide
example : resolve_date_key "20240228" = .ok (dtMidnight 2024 2 28, dtMidnight 2024 2 29) := by decide
example : resolve_date_key "2024-12" = .error (.valueError dateKeyFormatMsg) := by decide

/-- Python truthiness of an `Optional[str]`: `None` and `""` are falsy. -/
def optTruthy : Option String → Bool
  | some s => s ≠ ""
  | none => false

/-! ## `fetch_banb_data_by_pid_and_range`, date-range portion
(src/app/services/banb_data.py lines 30-44, identical in rtf_data.py)

```python
start_dt = None; end_dt = None
if start_key:
    start_dt, start_dt_end = _resolve_date_key(start_key)
    if not end_key:
        end_dt = start_dt_end
if end_key:
    end_start, end_dt_candidate = _resolve_date_key(end_key)
    if not start_key:
        start_dt = end_start
    end_dt = end_dt_candidate
if start_dt and end_dt and start_dt >= end_dt:
    raise ValueError("start_key must represent a period earlier than end_key")
```

`datetime` objects are always truthy, and on the component order
`start_dt >= end_dt` is exactly `¬ (start_dt < end_dt)`. -/

def invalidRangeMsg : String :=
  "start_key must represent a period earlier than end_key"

def resolve_pair_banb (startKey endKey : Option String) :
    Except PyErr (Option PyDateTime × Option PyDateTime) :=
  let step1 : Except PyErr (Option PyDateTime × Option PyDateTime) :=
    if optTruthy startKey then
      match resolve_date_key (startKey.getD "") with
      | .error e => .error e
      | .ok (startDt, startDtEnd) =>
        .ok (some startDt, if optTruthy endKey then none else some startDtEnd)
    else .ok (none, none)
  match step1 with
  | .error e => .error e
  | .ok (startDt1, endDt1) =>
    let step2 : Except PyErr (Option PyDateTime × Option PyDateTime) :=
      if optTruthy endKey then
        match resolve_date_key (endKey.getD "") with
        | .error e => .error e
        | .ok (endStart, endDtCandidate) =>
          .ok ((if optTruthy startKey then startDt1 else some endStart),
               some endDtCandidate)
      else .ok (startDt1, endDt1)
    match step2 with
    | .error e => .error e
    | .ok (startDt, endDt) =>
      match startDt, endDt with
      | some s, some e =>
        if PyDateTime.lt s e then .ok (some s, some e)
        else .error (.valueError invalidRangeMsg)
      | _, _ => .ok (startDt, endDt)

example : resolve_pair_banb (some "202412") none
    = .ok (some (dtMidnight 2024 12 1), some (dtMidnight 2025 1 1)) := by decide
example : resolve_pair_banb none (some "202412")
    = .ok (some (dtMidnight 2024 12 1), some (dtMidnight 2025 1 1)) := by decide
example : resolve_pair_banb (some "20241205") (some "20241204")
    = .error (.valueError invalidRangeMsg) := by decide
example : resolve_pair_banb (some "2024-12-05") (some "2024-12-04")
    = .error (.valueError dateKeyFormatMsg) := by decide

/-! ## Models of `datetime.fromisoformat` and `datetime.strptime`

`_parse_cycle_start_date` (src/app/services/banbury_anomaly_detection.py)
delegates to `datetime.fromisoformat` and to `datetime.strptime` with seven
fixed format strings.  `fromisoformat` is modelled on the CPython 3.11+
documented grammar (extended `YYYY-MM-DD` or basic `YYYYMMDD` date, any single
separator character, `HH[:MM[:SS[.ffffff]]]` or `HHMM[SS[.ffffff]]` time, and
an optional `±HH[:MM[:SS]]`/`±HHMM[SS]` offset; ISO week dates are not used by
any caller and are omitted).  Each `strptime` format is modelled with
fixed-width fields, which under the length guards of the caller is exact. -/

/-- Read exactly `n` ASCII digits, returning their value and the rest. -/
def readDigitsAux : Nat → Nat → List Char → Option (Nat × List Char)
  | acc, 0, cs => some (acc, cs)
  | acc, n + 1, c :: cs =>
    if c.isDigit then readDigitsAux (acc * 10 + (c.toNat - 48)) n cs else none
  | _, _ + 1, [] => none

def readDigits (n : Nat) (cs : List Char) : Option (Nat × List Char) :=
  readDigitsAux 0 n cs

/-- The date part of an ISO string: `YYYY-MM-DD` or `YYYYMMDD`. -/
def isoParseDate (cs : List Char) : Option (Nat × Nat × Nat × List Char) := do
  let (y, r1) ← readDigits 4 cs
  match r1 with
  | '-' :: r2 => do
    let (m, r3) ← readDigits 2 r2
    match r3 with
    | '-' :: r4 => do
      let (d, r5) ← readDigits 2 r4
      some (y, m, d, r5)
    | _ => none
  | _ => do
    let (m, r3) ← readDigits 2 r1
    let (d, r5) ← readDigits 2 r3
    some (y, m, d, r5)

/-- An ISO fractional-seconds part `('.' | ',') digits+`, scaled to
microseconds (digits beyond six are parsed and truncated). -/
def isoParseFrac : List Char → Option (Nat × List Char)
  | c :: rest =>
    if c = '.' ∨ c = ',' then
      let ds := rest.takeWhile Char.isDigit
      if ds.isEmpty then none
      else
        some (digitsToNat (ds.take 6 ++ List.replicate (6 - ds.length) '0'),
          rest.dropWhile Char.isDigit)
    else none
  | [] => none

/-- The time-of-day part of an ISO string: `HH[:MM[:SS[.ffffff]]]` or
`HHMM[SS[.ffffff]]`. -/
def isoParseTime (cs : List Char) : Option (Nat × Nat × Nat × Nat × List Char) := do
  let (h, r1) ← readDigits 2 cs
  match r1 with
  | ':' :: r2 => do
    let (mi, r3) ← readDigits 2 r2
    match r3 with
    | ':' :: r4 => do
      let (s, r5) ← readDigits 2 r4
      match isoParseFrac r5 with
      | some (us, r6) => some (h, mi, s, us, r6)
      | none => some (h, mi, s, 0, r5)
    | _ => some (h, mi, 0, 0, r3)
  | _ =>
    match readDigits 2 r1 with
    | some (mi, r3) =>
      match readDigits 2 r3 with
      | some (s, r5) =>
        match isoParseFrac r5 with
        | some (us, r6) => some (h, mi, s, us, r6)
        | none => some (h, mi, s, 0, r5)
      | none => some (h, mi, 0, 0, r3)
    | none => some (h, 0, 0, 0, r1)

/-- The offset part of an ISO string: empty (naive) or
`±HH[:MM[:SS]]`/`±HHMM[SS]`, consuming the whole remainder. -/
def isoParseTz (cs : List Char) : Option (Option Tz) :=
  match cs with
  | [] => some none
  | sign :: rest =>
    if sign = '+' ∨ sign = '-' then
      match readDigits 2 rest with
      | none => none
      | some (oh, r1) =>
        let tail : Option (Nat × Nat × List Char) :=
          match r1 with
          | ':' :: r2 =>
            match readDigits 2 r2 with
            | none => none
            | some (om, r3) =>
              match r3 with
              | ':' :: r4 =>
                match readDigits 2 r4 with
                | none => none
                | some (os, r5) => some (om, os, r5)
              | _ => some (om, 0, r3)
          | _ =>
            match readDigits 2 r1 with
            | some (om, r3) =>
              match readDigits 2 r3 with
              | some (os, r5) => some (om, os, r5)
              | none => some (om, 0, r3)
            | none => some (0, 0, r1)
        match tail with
        | none => none
        | some (om, os, r) =>
          if r = [] ∧ oh ≤ 23 ∧ om ≤ 59 ∧ os ≤ 59 then
            let total : Int := (oh * 3600 + om * 60 + os : Nat)
            some (some (.utcOffset (if sign = '-' then -total else total)))
          else none
    else none

/-- Model of `datetime.fromisoformat` (CPython 3.11+ documented grammar,
see the section comment). -/
def fromisoformat (s : String) : Option PyDateTime := do
  let (y, m, d, rest) ← isoParseDate s.data
  if 1 ≤ y ∧ 1 ≤ m ∧ m ≤ 12 ∧ 1 ≤ d ∧ d ≤ daysInMonth y m then
    match rest with
    | [] => some ⟨y, m, d, 0, 0, 0, 0, none⟩
    | _sep :: timeCs => do
      let (h, mi, sec, us, rest2) ← isoParseTime timeCs
      let tz ← isoParseTz rest2
      if h ≤ 23 ∧ mi ≤ 59 ∧ sec ≤ 59 then some ⟨y, m, d, h, mi, sec, us, tz⟩
      else none
  else none

example : fromisoformat "2024-12-05" = some (dtMidnight 2024 12 5) := by decide
example : fromisoformat "20241205" = some (dtMidnight 2024 12 5) := by decide
example : fromisoformat "202412" = none := by decide
example : fromisoformat "2024-12" = none := by decide
example : fromisoformat "2024" = none := by decide
example : fromisoformat "2024-12-05 14:30" = some ⟨2024, 12, 5, 14, 30, 0, 0, none⟩ := by decide
example : fromisoformat "2024-12-05T14:30:00+07:00"
    = some ⟨2024, 12, 5, 14, 30, 0, 0, some (.utcOffset 25200)⟩ := by decide
example : fromisoformat "0000-01-01" = none := by decide

/-- Shared component validation of `datetime.strptime` results (performed by
the `datetime` constructor it calls). -/
def spValidate (y m d h mi s : Nat) : Option PyDateTime :=
  if 1 ≤ y ∧ y ≤ 9999 ∧ 1 ≤ m ∧ m ≤ 12 ∧ 1 ≤ d ∧ d ≤ daysInMonth y m ∧
      h ≤ 23 ∧ mi ≤ 59 ∧ s ≤ 59 then
    some ⟨y, m, d, h, mi, s, 0, none⟩
  else none

/-- Date fields of `strptime` formats `"%Y-%m-%d"` (dash) / `"%Y%m%d"`. -/
def strptimeDateFields (dash : Bool) (cs : List Char) :
    Option (Nat × Nat × Nat × List Char) := do
  let (y, r1) ← readDigits 4 cs
  if dash then
    match r1 with
    | '-' :: r2 => do
      let (m, r3) ← readDigits 2 r2
      match r3 with
      | '-' :: r4 => do
        let (d, r5) ← readDigits 2 r4
        some (y, m, d, r5)
      | _ => none
    | _ => none
  else do
    let (m, r3) ← readDigits 2 r1
    let (d, r5) ← readDigits 2 r3
    some (y, m, d, r5)

/-- `strptime` with format `"%Y-%m-%d"` (dash) or `"%Y%m%d"`. -/
def strptimeYmd (dash : Bool) (cs : List Char) : Option PyDateTime :=
  match strptimeDateFields dash cs with
  | some (y, m, d, []) => spValidate y m d 0 0 0
  | _ => none

/-- `strptime` with format `"%Y-%m-%d %H:%M[:%S]"` (dash) or
`"%Y%m%d %H:%M[:%S]"`. -/
def strptimeYmdTime (dash withSec : Bool) (cs : List Char) : Option PyDateTime :=
  match strptimeDateFields dash cs with
  | some (y, m, d, ' ' :: r1) =>
    match readDigits 2 r1 with
    | some (h, ':' :: r2) =>
      match readDigits 2 r2 with
      | some (mi, r3) =>
        if withSec then
          match r3 with
          | ':' :: r4 =>
            match readDigits 2 r4 with
            | some (s, []) => spValidate y m d h mi s
            | _ => none
          | _ => none
        else
          match r3 with
          | [] => spValidate y m d h mi 0
          | _ => none
      | _ => none
    | _ => none
  | _ => none

/-- `strptime` with format `"%Y-%m"` (dash) or `"%Y%m"`, followed by the
callers' `datetime(parsed.year, parsed.month, 1)`. -/
def strptimeYm (dash : Bool) (cs : List Char) : Option PyDateTime := do
  let (y, r1) ← readDigits 4 cs
  if dash then
    match r1 with
    | '-' :: r2 =>
      match readDigits 2 r2 with
      | some (m, []) => spValidate y m 1 0 0 0
      | _ => none
    | _ => none
  else
    match readDigits 2 r1 with
    | some (m, []) => spValidate y m 1 0 0 0
    | _ => none

/-! ## `_parse_cycle_start_date`
(src/app/services/banbury_anomaly_detection.py lines 14-118)

The Python source strips the input, tries `fromisoformat` on the input with
every `"Z"` replaced by `"+00:00"` (stamping `DEFAULT_TZ` on a naive result),
then falls through a guarded cascade of `strptime` attempts, each of which
stamps `DEFAULT_TZ`; exhaustion raises `ValueError` naming the supported
formats. -/

/-- `DEFAULT_TZ = ZoneInfo("Asia/Seoul")` — the fixed zone for naive inputs
("PLC timestamp is KST"). -/
def defaultTz : Tz := .zone "Asia/Seoul"

/-- The `ValueError` message of `_parse_cycle_start_date` (applied to the
stripped input, as in the source). -/
def cycleStartFmtMsg (dateStr : String) : String :=
  "Invalid date format. Supported formats: yyyy, yyyyMM, yyyyMMdd, yyyy-MM, YYYY-MM-DD, " ++
    "YYYY-MM-DD HH:MM, YYYY-MM-DD HH:MM:SS. Input value: " ++ dateStr

/-- Stamp `DEFAULT_TZ` on a branch result (`.replace(tzinfo=DEFAULT_TZ)`). -/
def withKst (o : Option PyDateTime) : Option PyDateTime :=
  o.map fun d => { d with tz := some defaultTz }

def parse_cycle_start_date (dateStr : String) : Except PyErr PyDateTime :=
  let cs := stripCL dateStr.data
  match fromisoformat (String.mk (replaceCL "Z".data "+00:00".data cs)) with
  | some d => .ok (if d.tz.isNone then { d with tz := some defaultTz } else d)
  | none =>
    -- yyyyMMdd HH:MM:SS
    match (if cs.length = 19 ∧ cs.contains ' ' ∧ cs.contains ':' then
        withKst (strptimeYmdTime false true cs) else none) with
    | some d => .ok d
    | none =>
    -- yyyyMMdd HH:MM
    match (if cs.length = 16 ∧ cs.contains ' ' ∧ cs.contains ':' ∧
          ¬(cs.take 10).contains '-' then
        withKst (strptimeYmdTime false false cs) else none) with
    | some d => .ok d
    | none =>
    -- YYYY-MM-DD HH:MM:SS
    match (if cs.length = 19 ∧ cs.contains ' ' ∧ cs.count '-' = 2 ∧
          cs.count ':' = 2 then
        withKst (strptimeYmdTime true true cs) else none) with
    | some d => .ok d
    | none =>
    -- YYYY-MM-DD HH:MM
    match (if cs.length = 16 ∧ cs.contains ' ' ∧ cs.count '-' = 2 ∧
          cs.count ':' = 1 then
        withKst (strptimeYmdTime true false cs) else none) with
    | some d => .ok d
    | none =>
    -- YYYY-MM-DD
    match (if cs.length = 10 ∧ cs.count '-' = 2 then
        withKst (strptimeYmd true cs) else none) with
    | some d => .ok d
    | none =>
    -- yyyyMMdd
    match (if cs.length = 8 ∧ allDigits cs then
        withKst (strptimeYmd false cs) else none) with
    | some d => .ok d
    | none =>
    -- yyyy-MM
    match (if cs.length = 7 ∧ cs.count '-' = 1 then
        withKst (strptimeYm true cs) else none) with
    | some d => .ok d
    | none =>
    -- yyyyMM
    match (if cs.length = 6 ∧ allDigits cs then
        withKst (strptimeYm false cs) else none) with
    | some d => .ok d
    | none =>
    -- yyyy
    match (if cs.length = 4 ∧ allDigits cs then
        withKst (mkPyDate (digitsToNat cs) 1 1) else none) with
    | some d => .ok d
    | none => .error (.valueError (cycleStartFmtMsg (String.mk cs)))

/-- Midnight of a date carrying the default KST zone. -/
def dtKst (y m d : Nat) : PyDateTime := ⟨y, m, d, 0, 0, 0, 0, some defaultTz⟩

example : parse_cycle_start_date "2024" = .ok (dtKst 2024 1 1) := by decide
example : parse_cycle_start_date "202412" = .ok (dtKst 2024 12 1) := by decide
example : parse_cycle_start_date "2024-12" = .ok (dtKst 2024 12 1) := by decide
example : parse_cycle_start_date "20241205" = .ok (dtKst 2024 12 5) := by decide
example : parse_cycle_start_date "2024-12-05" = .ok (dtKst 2024 12 5) := by decide
example : parse_cycle_start_date "2024-12-05 14:30"
    = .ok ⟨2024, 12, 5, 14, 30, 0, 0, some defaultTz⟩ := by decide
example : parse_cycle_start_date "2024-12-05 14:30:00"
    = .ok ⟨2024, 12, 5, 14, 30, 0, 0, some defaultTz⟩ := by decide
example : parse_cycle_start_date "invalid"
    = .error (.valueError (cycleStartFmtMsg "invalid")) := by decide

/-! ## `_resolve_cycle_start_range`
(src/app/services/banbury_anomaly_detection.py lines 121-175)

Parses each supplied key with `_parse_cycle_start_date`, then widens the
result to the start (respectively the exclusive end) of the denoted period
according to the shape of the stripped key.  Note: the source performs **no**
`start < end` check before returning the pair. -/

/-- Validating `datetime(y, m, d, tzinfo=tz)` constructor. -/
def pyDatetimeTzE (y m d : Nat) (tz : Option Tz) : Except PyErr PyDateTime :=
  match mkPyDate y m d with
  | some t => .ok { t with tz := tz }
  | none => .error badDatetimeErr

/-- Start-of-period widening of a parsed start key (lines 139-151). -/
def adjustCycleStart (key : String) (d : PyDateTime) : Except PyErr PyDateTime :=
  let ks := stripCL key.data
  let tz := some (d.tz.getD defaultTz)
  if ks.length = 4 then pyDatetimeTzE d.year 1 1 tz
  else if ks.length = 6 ∧ allDigits ks then pyDatetimeTzE d.year d.month 1 tz
  else if ks.length = 7 ∧ ks.contains '-' then pyDatetimeTzE d.year d.month 1 tz
  else if ks.length = 8 ∧ allDigits ks then pyDatetimeTzE d.year d.month d.day tz
  else if ks.length = 10 ∧ ks.count '-' = 2 then pyDatetimeTzE d.year d.month d.day tz
  else .ok d

/-- End-of-period widening of a parsed end key (lines 155-173). -/
def adjustCycleEnd (key : String) (d : PyDateTime) : Except PyErr PyDateTime :=
  let ks := stripCL key.data
  let tz := some (d.tz.getD defaultTz)
  if ks.length = 4 then pyDatetimeTzE (d.year + 1) 1 1 tz
  else if ks.length = 6 ∧ allDigits ks then
    if d.month = 12 then pyDatetimeTzE (d.year + 1) 1 1 tz
    else pyDatetimeTzE d.year (d.month + 1) 1 tz
  else if ks.length = 7 ∧ ks.contains '-' then
    if d.month = 12 then pyDatetimeTzE (d.year + 1) 1 1 tz
    else pyDatetimeTzE d.year (d.month + 1) 1 tz
  else if ks.length = 8 ∧ allDigits ks then
    match d.addOneDay with
    | some e => .ok e
    | none => .error .overflowError
  else if ks.length = 10 ∧ ks.count '-' = 2 then
    match d.addOneDay with
    | some e => .ok e
    | none => .error .overflowError
  else .ok d

def resolve_cycle_start_range (startKey endKey : Option String) :
    Except PyErr (Option PyDateTime × Option PyDateTime) := do
  let startDt ←
    if optTruthy startKey then do
      let d ← parse_cycle_start_date (startKey.getD "")
      let a ← adjustCycleStart (startKey.getD "") d
      pure (some a)
    else pure (none : Option PyDateTime)
  let endDt ←
    if optTruthy endKey then do
      let d ← parse_cycle_start_date (endKey.getD "")
      let a ← adjustCycleEnd (endKey.getD "") d
      pure (some a)
    else pure (none : Option PyDateTime)
  pure (startDt, endDt)

example : resolve_cycle_start_range (some "2024") (some "2024")
    = .ok (some (dtKst 2024 1 1), some (dtKst 2025 1 1)) := by decide
example : resolve_cycle_start_range (some "202412") (some "202412")
    = .ok (some (dtKst 2024 12 1), some (dtKst 2025 1 1)) := by decide
example : resolve_cycle_start_range (some "20241205") (some "20241205")
    = .ok (some (dtKst 2024 12 5), some (dtKst 2024 12 6)) := by decide
example : resolve_cycle_start_range (some "2024-12-05") (some "2024-12-05")
    = .ok (some (dtKst 2024 12 5), some (dtKst 2024 12 6)) := by decide
example : resolve_cycle_start_range (some "2024-12-05") (some "2024-12-04")
    = .ok (some (dtKst 2024 12 5), some (dtKst 2024 12 5)) := by decide

/-! ## `get_jakarta_shift_business_date`
(src/app/services/productivity_shift.py lines 19-71)

The function operates on a Jakarta-local instant, modelled as a calendar date
plus the time-of-day in microseconds (`_dt_in_jakarta` normalisation is the
caller's concern).  Every `now_jkt < combine(t)` comparison in the source
compares two datetimes on the same calendar date, hence reduces to comparing
times-of-day; `combine(t3, now_jkt - timedelta(days=1))` produces a datetime
on the previous calendar day (Jakarta has a fixed offset, so aware-datetime
day arithmetic is plain calendar arithmetic), and that subtraction raises
`OverflowError` when `now_jkt` lies on `datetime.min`'s date `0001-01-01` —
the one input on which the source raises.  `(start_dt or now_jkt).date()`
keeps only the calendar date, so only the date of each window start
matters. -/

/-- A Jakarta-local instant: calendar date plus time-of-day in microseconds. -/
structure JktInstant where
  date : Date
  tod : Nat
deriving DecidableEq, Repr

/-- A time-of-day in microseconds. -/
def todOf (h mi : Nat) : Nat := (h * 3600 + mi * 60) * 1000000

def get_jakarta_shift_business_date (now : JktInstant) : Except PyErr Date :=
  let weekday := pyWeekday now.date
  let startDate? : Except PyErr (Option Date) :=
    if weekday = 0 ∨ weekday = 1 ∨ weekday = 2 ∨ weekday = 3 then
      -- Mon-Thu: t1, t2, t3 = 06:30, 14:30, 22:30
      if now.tod < todOf 6 30 then
        match prevDayE now.date with
        | some d => .ok (some d)
        | none => .error .overflowError
      else if now.tod < todOf 14 30 then .ok (some now.date)
      else if now.tod < todOf 22 30 then .ok (some now.date)
      else .ok (some now.date)
    else if weekday = 4 then
      -- Fri: t1, t2, t3, t_overlap = 06:30, 15:00, 23:00, 22:30
      if now.tod < todOf 6 30 then
        match prevDayE now.date with
        | some d => .ok (some d)
        | none => .error .overflowError
      else if now.tod < todOf 15 0 then .ok (some now.date)
      else if now.tod < todOf 23 0 then .ok (some now.date)
      else .ok (some now.date)
    else if weekday = 5 then
      -- Sat: t1, t2, t3 = 06:30, 11:30, 16:30; before 06:30 returns NULL
      if now.tod < todOf 6 30 then .ok none
      else if now.tod < todOf 11 30 then .ok (some now.date)
      else if now.tod < todOf 16 30 then .ok (some now.date)
      else .ok (some now.date)
    else .ok none -- Sun fallback
  match startDate? with
  | .ok sd => .ok (sd.getD now.date)
  | .error e => .error e

-- 2024-12-02 is a Monday; 2024-12-07 a Saturday; 2024-12-08 a Sunday.
example : pyWeekday ⟨2024, 12, 2⟩ = 0 := by decide
example : pyWeekday ⟨2024, 12, 8⟩ = 6 := by decide
example : get_jakarta_shift_business_date ⟨⟨2024, 12, 2⟩, todOf 6 30⟩
    = .ok ⟨2024, 12, 2⟩ := by decide
example : get_jakarta_shift_business_date ⟨⟨2024, 12, 2⟩, todOf 6 30 - 1000000⟩
    = .ok ⟨2024, 12, 1⟩ := by decide
example : get_jakarta_shift_business_date ⟨⟨2024, 12, 7⟩, todOf 3 0⟩
    = .ok ⟨2024, 12, 7⟩ := by decide
example : get_jakarta_shift_business_date ⟨⟨2024, 12, 8⟩, todOf 12 0⟩
    = .ok ⟨2024, 12, 8⟩ := by decide

/-! ## `Settings.database_urls` (src/app/core/config.py lines 44-101)

The computed field scans the environment (modelled as an ordered association
list of key/value pairs) for `IP<digits>_DATABASE_URL`,
`BANB<digits>_DATABASE_URL`, `CTM<digits>_DATABASE_URL` (case-insensitive
regexes) and `CKP_*_DATABASE_URL` (case-insensitive prefix/suffix test), then
appends the `montrg` and `cmms` fixed entries from their dedicated settings
fields.  `urls[alias] = value` on an (ordered) `dict` updates in place when the
alias exists and appends otherwise. -/

/-- `^<pre>(\d+)_DATABASE_URL$` matched with `re.IGNORECASE` against a key:
returns the digit group.  The subject is upper-cased first; since the digit
group and the literal parts are case-insensitive this is equivalent, and the
digits of the original key are unchanged by the case fold. -/
def matchNumberedKey (pre : List Char) (key : String) : Option (List Char) :=
  let u := upperCL key.data
  if pre.isPrefixOf u then
    let rest := u.drop pre.length
    if "_DATABASE_URL".data.isSuffixOf rest ∧ "_DATABASE_URL".data.length ≤ rest.length then
      let mid := rest.take (rest.length - "_DATABASE_URL".data.length)
      if allDigits mid then some mid else none
    else none
  else none

example : matchNumberedKey "IP".data "IP04_DATABASE_URL" = some "04".data := by decide
example : matchNumberedKey "IP".data "ip04_database_url" = some "04".data := by decide
example : matchNumberedKey "IP".data "IP_DATABASE_URL" = none := by decide
example : matchNumberedKey "IP".data "IPX4_DATABASE_URL" = none := by decide

/-- `key.upper().startswith('CKP_') and key.upper().endswith('_DATABASE_URL')`. -/
def ckpKeyMatches (key : String) : Bool :=
  let u := upperCL key.data
  "CKP_".data.isPrefixOf u && "_DATABASE_URL".data.isSuffixOf u

/-- `key.replace('_DATABASE_URL', '').lower()` — note: the (case-sensitive)
replace runs on the *original* key. -/
def ckpAliasOf (key : String) : String :=
  String.mk (lowerCL (replaceCL "_DATABASE_URL".data [] key.data))

/-- The alias produced for one environment entry, or `none` when the entry is
skipped (empty value or no pattern matches); the patterns are tried in source
order. -/
def discoverAlias (key value : String) : Option String :=
  if value = "" then none
  else
    match matchNumberedKey "IP".data key with
    | some ds => some (String.mk ("ip".data ++ lowerCL ds))
    | none =>
      match matchNumberedKey "BANB".data key with
      | some ds => some (String.mk ("banb".data ++ lowerCL ds))
      | none =>
        match matchNumberedKey "CTM".data key with
        | some ds => some (String.mk ("ctm".data ++ lowerCL ds))
        | none =>
          if ckpKeyMatches key then some (ckpAliasOf key) else none

/-- `urls[alias] = value` on an insertion-ordered `dict`. -/
def odInsert : List (String × String) → String → String → List (String × String)
  | [], a, v => [(a, v)]
  | (b, w) :: rest, a, v =>
    if b = a then (b, v) :: rest else (b, w) :: odInsert rest a v

/-- One iteration of the discovery loop. -/
def discoverStep (urls : List (String × String)) (kv : String × String) :
    List (String × String) :=
  match discoverAlias kv.1 kv.2 with
  | some a => odInsert urls a kv.2
  | none => urls

/-- Python truthiness of the `montrg_database_url` / `cmms_database_url`
settings fields. -/
def addFixedUrl (urls : List (String × String)) (aliasName : String)
    (url : Option String) : List (String × String) :=
  match url with
  | some u => if u ≠ "" then odInsert urls aliasName u else urls
  | none => urls

def database_urls (env : List (String × String))
    (montrgUrl cmmsUrl : Option String) : List (String × String) :=
  addFixedUrl (addFixedUrl (env.foldl discoverStep []) "montrg" montrgUrl)
    "cmms" cmmsUrl

example : database_urls
    [("IP04_DATABASE_URL", "mysql+aiomysql://a"),
     ("banb01_database_url", "mysql+aiomysql://b"),
     ("Ctm01_Database_Url", "mysql+aiomysql://c"),
     ("CKP_CHILLER_DATABASE_URL", "postgresql+asyncpg://d"),
     ("IP05_DATABASE_URL", ""),
     ("PATH", "/usr/bin")]
    (some "postgresql+asyncpg://m") (some "oracle+oracledb://o")
    = [("ip04", "mysql+aiomysql://a"), ("banb01", "mysql+aiomysql://b"),
       ("ctm01", "mysql+aiomysql://c"), ("ckp_chiller", "postgresql+asyncpg://d"),
       ("montrg", "postgresql+asyncpg://m"), ("cmms", "oracle+oracledb://o")] := by decide

example : database_urls [("ckp_chiller_database_url", "postgresql+asyncpg://d")] none none
    = [("ckp_chiller_database_url", "postgresql+asyncpg://d")] := by decide

/-! ## Engine provisioning and alias resolution
(src/app/core/database.py lines 50-110)

The provisioning loop sorts each `(alias, url)` of `settings.database_urls`
into `SYNC_ENGINES` (only `cmms` with an `oracle+oracledb` URL scheme) or
`ASYNC_ENGINES` (everything else); `SESSION_FACTORIES`, and hence
`available_databases()`, is keyed by the async engines only. -/

/-- `url.lower().startswith("oracle+oracledb")`. -/
def oracleThickUrl (url : String) : Bool :=
  "oracle+oracledb".data.isPrefixOf (lowerCL url.data)

/-- The provisioning loop: returns `(ASYNC_ENGINES, SYNC_ENGINES)` as ordered
association lists of `(alias, url)`. -/
def provisionEngines : List (String × String) → List (String × String) × List (String × String)
  | [] => ([], [])
  | (al, url) :: rest =>
    let (asyncEngines, syncEngines) := provisionEngines rest
    if al = "cmms" && oracleThickUrl url then
      (asyncEngines, (al, url) :: syncEngines)
    else
      ((al, url) :: asyncEngines, syncEngines)

/-- `available_databases()`: the aliases having an async session factory. -/
def available_databases (urls : List (String × String)) : List String :=
  (provisionEngines urls).1.map Prod.fst

/-- `DEFAULT_DB_ALIAS`: the first configured alias (the module refuses to load
on an empty configuration, modelled by the `""` fallback never being reached
for a non-empty registry). -/
def defaultDbAlias (urls : List (String × String)) : String :=
  ((urls.head?).map Prod.fst).getD ""

inductive DbAliasError where
  | unknownAlias (requested : String) (available : List String)
deriving DecidableEq, Repr

/-- `resolve_db_alias` (src/app/core/database.py lines 80-85): `alias or
DEFAULT_DB_ALIAS`, then membership test against `settings.database_urls`,
raising `ValueError` carrying `available_databases()` otherwise. -/
def resolve_db_alias (urls : List (String × String)) (aliasArg : Option String) :
    Except DbAliasError String :=
  let resolved := match aliasArg with
    | some a => if a ≠ "" then a else defaultDbAlias urls
    | none => defaultDbAlias urls
  if (urls.map Prod.fst).contains resolved then .ok resolved
  else .error (.unknownAlias resolved (available_databases urls))

example : resolve_db_alias [("ip04", "mysql+aiomysql://a")] none = .ok "ip04" := by decide
example : resolve_db_alias
    [("ip04", "mysql+aiomysql://a"), ("cmms", "oracle+oracledb://o")] (some "nope")
    = .error (.unknownAlias "nope" ["ip04"]) := by decide

/-! ## Helper lemmas about `resolve_date_key` -/

theorem mkPyDate_ok {y m d : Nat} {t : PyDateTime} (h : mkPyDate y m d = some t) :
    Date.isValid ⟨y, m, d⟩ = true ∧ t = dtMidnight y m d := by
  unfold mkPyDate at h
  split at h
  · exact ⟨by assumption, by cases h; rfl⟩
  · cases h

theorem pyDatetimeE_ok {y m d : Nat} {t : PyDateTime} (h : pyDatetimeE y m d = .ok t) :
    Date.isValid ⟨y, m, d⟩ = true ∧ t = dtMidnight y m d := by
  unfold pyDatetimeE at h
  split at h
  next heq => exact mkPyDate_ok (heq.trans (by injection h with h; rw [h]))
  next => cases h

theorem pyDatetimeE_of_valid {y m d : Nat} (h : Date.isValid ⟨y, m, d⟩ = true) :
    pyDatetimeE y m d = .ok (dtMidnight y m d) := by
  unfold pyDatetimeE mkPyDate
  rw [h]
  simp

theorem addOneDay_lt {t e : PyDateTime} (h : PyDateTime.addOneDay t = some e) :
    PyDateTime.lt t e = true := by
  simp only [PyDateTime.addOneDay] at h
  split at h
  · cases h
    unfold PyDateTime.lt nextDay PyDateTime.dateOf
    split
    · simp
    · split <;> simp
  · cases h

theorem resolve_date_key_ok_lt {k : String} {s e : PyDateTime}
    (h : resolve_date_key k = .ok (s, e)) : PyDateTime.lt s e = true := by
  simp only [resolve_date_key] at h
  split at h
  · cases h
  · split at h
    · -- 4-digit branch
      split at h
      next hs he =>
        obtain ⟨_, rfl⟩ := pyDatetimeE_ok hs
        obtain ⟨_, rfl⟩ := pyDatetimeE_ok he
        cases h
        simp [PyDateTime.lt, dtMidnight]
      next => cases h
      next => cases h
    · split at h
      · -- 6-digit branch
        split at h
        next hs he =>
          obtain ⟨_, rfl⟩ := pyDatetimeE_ok hs
          split at he
          · obtain ⟨_, rfl⟩ := pyDatetimeE_ok he
            cases h
            simp [PyDateTime.lt, dtMidnight]
          · obtain ⟨_, rfl⟩ := pyDatetimeE_ok he
            cases h
            simp [PyDateTime.lt, dtMidnight]
        next => cases h
        next => cases h
      · -- 8-digit branch
        split at h
        next => cases h
        next hs =>
          split at h
          next hadd =>
            cases h
            exact addOneDay_lt hadd
          next => cases h

theorem resolve_date_key_ok_ne_empty {k : String} {p : PyDateTime × PyDateTime}
    (h : resolve_date_key k = .ok p) : k ≠ "" := by
  intro hk
  subst hk
  rw [show resolve_date_key "" = .error (.valueError dateKeyFormatMsg) from by decide] at h
  cases h

theorem one_le_daysInMonth (y m : Nat) : 1 ≤ daysInMonth y m := by
  unfold daysInMonth
  split
  · split <;> omega
  · split <;> omega

theorem date_isValid_first (y m : Nat) (h1 : 1 ≤ y) (h2 : y ≤ 9999)
    (h3 : 1 ≤ m) (h4 : m ≤ 12) : Date.isValid ⟨y, m, 1⟩ = true := by
  have := one_le_daysInMonth y m
  simp [Date.isValid]
  omega

/-- **C1.** For every valid date key of 4 digits (year), 6 digits
(year-month), or 8 digits (day), `_resolve_date_key` returns a half-open
range whose start is the first instant of the denoted period and whose end is
the first instant of the next period at the same granularity, with
December→January month rollover and leap-year day rollover handled by
calendar arithmetic (`nextDay`), as in `"2024"` ↦ `[2024-01-01, 2025-01-01)`,
`"202412"` ↦ `[2024-12-01, 2025-01-01)`, `"20241205"` ↦
`[2024-12-05, 2024-12-06)`. -/
theorem claim_C1_date_key_half_open_ranges :
    (∀ (k : String) (y : Nat), k.data.length = 4 → allDigits k.data = true →
      digitsToNat k.data = y → 1 ≤ y → y + 1 ≤ 9999 →
      resolve_date_key k = .ok (dtMidnight y 1 1, dtMidnight (y + 1) 1 1))
  ∧ (∀ (k : String) (y m : Nat), k.data.length = 6 → allDigits k.data = true →
      digitsToNat (k.data.take 4) = y → digitsToNat ((k.data.drop 4).take 2) = m →
      1 ≤ y → y ≤ 9999 → 1 ≤ m → m ≤ 12 → (m = 12 → y + 1 ≤ 9999) →
      resolve_date_key k = .ok (dtMidnight y m 1,
        if m = 12 then dtMidnight (y + 1) 1 1 else dtMidnight y (m + 1) 1))
  ∧ (∀ (k : String) (y m d : Nat), k.data.length = 8 → allDigits k.data = true →
      digitsToNat (k.data.take 4) = y → digitsToNat ((k.data.drop 4).take 2) = m →
      digitsToNat ((k.data.drop 6).take 2) = d →
      Date.isValid ⟨y, m, d⟩ = true → (nextDay ⟨y, m, d⟩).year ≤ 9999 →
      resolve_date_key k = .ok (dtMidnight y m d,
        dtMidnight (nextDay ⟨y, m, d⟩).year (nextDay ⟨y, m, d⟩).month
          (nextDay ⟨y, m, d⟩).day))
  ∧ (resolve_date_key "2024" = .ok (dtMidnight 2024 1 1, dtMidnight 2025 1 1)
      ∧ resolve_date_key "202412" = .ok (dtMidnight 2024 12 1, dtMidnight 2025 1 1)
      ∧ resolve_date_key "20241205" = .ok (dtMidnight 2024 12 5, dtMidnight 2024 12 6)
      ∧ resolve_date_key "20240228" = .ok (dtMidnight 2024 2 28, dtMidnight 2024 2 29)
      ∧ resolve_date_key "20230228" = .ok (dtMidnight 2023 2 28, dtMidnight 2023 3 1)
      ∧ resolve_date_key "20241231" = .ok (dtMidnight 2024 12 31, dtMidnight 2025 1 1)) := by
  refine ⟨?_, ?_, ?_, by decide, by decide, by decide, by decide, by decide, by decide⟩
  · intro k y hlen hdig hy h1 h2
    have htake : k.data.take 4 = k.data := by rw [← hlen]; exact List.take_length k.data
    have hval1 : Date.isValid ⟨y, 1, 1⟩ = true :=
      date_isValid_first y 1 h1 (by omega) (by omega) (by omega)
    have hval2 : Date.isValid ⟨y + 1, 1, 1⟩ = true :=
      date_isValid_first (y + 1) 1 (by omega) (by omega) (by omega) (by omega)
    simp only [resolve_date_key, htake, hy, hlen, hdig]
    simp [pyDatetimeE_of_valid hval1, pyDatetimeE_of_valid hval2]
  · intro k y m hlen hdig hy hm h1 h2 h3 h4 h5
    have hval1 : Date.isValid ⟨y, m, 1⟩ = true := date_isValid_first y m h1 h2 h3 h4
    simp only [resolve_date_key, hy, hm, hlen, hdig]
    simp only [show (6 : Nat) ≠ 4 from by omega]
    by_cases hm12 : m = 12
    · subst hm12
      have hval2 : Date.isValid ⟨y + 1, 1, 1⟩ = true :=
        date_isValid_first (y + 1) 1 (by omega) (by omega) (by omega) (by omega)
      simp [pyDatetimeE_of_valid hval1, pyDatetimeE_of_valid hval2]
    · have hval2 : Date.isValid ⟨y, m + 1, 1⟩ = true :=
        date_isValid_first y (m + 1) h1 h2 (by omega) (by omega)
      simp [hm12, pyDatetimeE_of_valid hval1, pyDatetimeE_of_valid hval2]
  · intro k y m d hlen hdig hy hm hd hval hnext
    simp only [resolve_date_key, hy, hm, hd, hlen, hdig]
    simp only [show (8 : Nat) ≠ 4 from by omega, show (8 : Nat) ≠ 6 from by omega]
    have hstart : pyDatetimeE y m d = .ok (dtMidnight y m d) := by
      unfold pyDatetimeE mkPyDate
      rw [hval]
      simp
    have hadd : (dtMidnight y m d).addOneDay = some
        (dtMidnight (nextDay ⟨y, m, d⟩).year (nextDay ⟨y, m, d⟩).month
          (nextDay ⟨y, m, d⟩).day) := by
      simp only [PyDateTime.addOneDay, PyDateTime.dateOf, dtMidnight]
      rw [if_pos hnext]
    simp [hstart, hadd]

/-- **C2.** `resolve_pair` over two optional date keys: a single supplied key
yields that key's own canonical period as both bounds; two supplied keys (of
possibly different granularities) yield the start key's period-start and the
end key's period-end; and `"202412"` with no end key yields
`[2024-12-01T00:00:00, 2025-01-01T00:00:00)`. -/
theorem claim_C2_resolve_pair_single_and_double :
    (∀ (k : String) (s e : PyDateTime), resolve_date_key k = .ok (s, e) →
        resolve_pair_banb (some k) none = .ok (some s, some e)
      ∧ resolve_pair_banb none (some k) = .ok (some s, some e))
  ∧ (∀ (k1 k2 : String) (s1 e1 s2 e2 : PyDateTime),
      resolve_date_key k1 = .ok (s1, e1) → resolve_date_key k2 = .ok (s2, e2) →
      PyDateTime.lt s1 e2 = true →
      resolve_pair_banb (some k1) (some k2) = .ok (some s1, some e2))
  ∧ resolve_pair_banb (some "202412") none
      = .ok (some (dtMidnight 2024 12 1), some (dtMidnight 2025 1 1)) := by
  refine ⟨?_, ?_, by decide⟩
  · intro k s e h
    have hk : k ≠ "" := resolve_date_key_ok_ne_empty h
    have hlt := resolve_date_key_ok_lt h
    constructor
    · simp only [resolve_pair_banb, optTruthy, Option.getD]
      simp [hk, h, hlt]
    · simp only [resolve_pair_banb, optTruthy, Option.getD]
      simp [hk, h, hlt]
  · intro k1 k2 s1 e1 s2 e2 h1 h2 hlt
    have hk1 : k1 ≠ "" := resolve_date_key_ok_ne_empty h1
    have hk2 : k2 ≠ "" := resolve_date_key_ok_ne_empty h2
    simp only [resolve_pair_banb, optTruthy, Option.getD]
    simp [hk1, hk2, h1, h2, hlt]

/-- Refutation of **C3** as stated: `resolve_pair("2024-12-05", "2024-12-04")`
does **not** fail with an invalid-range error.  In the anomaly-detection
service the pair resolves to the degenerate range
`[2024-12-05T00:00+KST, 2024-12-05T00:00+KST)` (start = end, violating
start < end) with no error at all, and in the banb/rtf service the key
`"2024-12-05"` is rejected up front as a malformed date key, so the failure
is the format error, not the range error. -/
theorem claim_C3_counterexample :
    resolve_cycle_start_range (some "2024-12-05") (some "2024-12-04")
      = .ok (some (dtKst 2024 12 5), some (dtKst 2024 12 5))
  ∧ resolve_pair_banb (some "2024-12-05") (some "2024-12-04")
      = .error (.valueError dateKeyFormatMsg) := ⟨by decide, by decide⟩

/-- **C3 (amended).** In the banb/rtf services, whenever both supplied keys
resolve and the start key's period-start is not earlier than the end key's
period-end, `resolve_pair` fails with the invalid-range `ValueError`
("start_key must represent a period earlier than end_key") rather than
returning a range.  (The anomaly-detection `_resolve_cycle_start_range`
performs no such check, and `"2024-12-05"` is not a valid banb/rtf key at
all — see the counterexample.) -/
theorem claim_C3_amended_invalid_range :
    ∀ (k1 k2 : String) (s1 e1 s2 e2 : PyDateTime),
      resolve_date_key k1 = .ok (s1, e1) → resolve_date_key k2 = .ok (s2, e2) →
      PyDateTime.lt s1 e2 = false →
      resolve_pair_banb (some k1) (some k2)
        = .error (.valueError invalidRangeMsg) := by
  intro k1 k2 s1 e1 s2 e2 h1 h2 hlt
  have hk1 : k1 ≠ "" := resolve_date_key_ok_ne_empty h1
  have hk2 : k2 ≠ "" := resolve_date_key_ok_ne_empty h2
  simp only [resolve_pair_banb, optTruthy, Option.getD]
  simp [hk1, hk2, h1, h2, hlt]

theorem claim_C3_amended_invalid_range_witness :
    resolve_pair_banb (some "20241205") (some "20241204")
      = .error (.valueError invalidRangeMsg) :=
  claim_C3_amended_invalid_range "20241205" "20241204"
    (dtMidnight 2024 12 5) (dtMidnight 2024 12 6)
    (dtMidnight 2024 12 4) (dtMidnight 2024 12 5)
    (by decide) (by decide) (by decide)

theorem claim_C1_date_key_half_open_ranges_witness :
    resolve_date_key "1999" = .ok (dtMidnight 1999 1 1, dtMidnight 2000 1 1)
  ∧ resolve_date_key "202502" = .ok (dtMidnight 2025 2 1, dtMidnight 2025 3 1)
  ∧ resolve_date_key "20240229"
      = .ok (dtMidnight 2024 2 29, dtMidnight 2024 3 1) :=
  ⟨claim_C1_date_key_half_open_ranges.1 "1999" 1999 (by decide) (by decide)
      (by decide) (by decide) (by decide),
   by
    have h := claim_C1_date_key_half_open_ranges.2.1 "202502" 2025 2 (by decide)
      (by decide) (by decide) (by decide) (by decide) (by decide) (by decide)
      (by decide) (by omega)
    simpa using h,
   by
    have h := claim_C1_date_key_half_open_ranges.2.2.1 "20240229" 2024 2 29
      (by decide) (by decide) (by decide) (by decide) (by decide) (by decide)
      (by decide)
    simpa using h⟩

theorem claim_C2_resolve_pair_single_and_double_witness :
    resolve_pair_banb none (some "2024")
      = .ok (some (dtMidnight 2024 1 1), some (dtMidnight 2025 1 1))
  ∧ resolve_pair_banb (some "2024") (some "202506")
      = .ok (some (dtMidnight 2024 1 1), some (dtMidnight 2025 7 1)) :=
  ⟨(claim_C2_resolve_pair_single_and_double.1 "2024" (dtMidnight 2024 1 1)
      (dtMidnight 2025 1 1) (by decide)).2,
   claim_C2_resolve_pair_single_and_double.2.1 "2024" "202506"
      (dtMidnight 2024 1 1) (dtMidnight 2025 1 1)
      (dtMidnight 2025 6 1) (dtMidnight 2025 7 1)
      (by decide) (by decide) (by decide)⟩

/-- Refutation of **C4** as stated.  No resolver in the code accepts exactly
the five claimed shapes: the banb/rtf `_resolve_date_key` rejects the 7-char
`-`-separated year-month `"2024-12"` (while accepting its digits-only twin
`"202412"`), and the anomaly-detection `_parse_cycle_start_date` — the one
function that does accept the `-` variants — also accepts shapes outside the
claimed set, e.g. the 16-char timestamp `"2024-12-05 14:30"`. -/
theorem claim_C4_counterexample :
    resolve_date_key "2024-12" = .error (.valueError dateKeyFormatMsg)
  ∧ resolve_date_key "202412" = .ok (dtMidnight 2024 12 1, dtMidnight 2025 1 1)
  ∧ parse_cycle_start_date "2024-12-05 14:30"
      = .ok ⟨2024, 12, 5, 14, 30, 0, 0, some defaultTz⟩ :=
  ⟨by decide, by decide, by decide⟩

/-- **C4 (amended).** The banb/rtf date-key resolver accepts exactly the
4-, 6- and 8-digit shapes: every other shape fails with the `ValueError`
whose message names the supported formats (YYYY, YYYYMM, YYYYMMDD).  The
`-`-separated 7-char year-month and 10-char full-date variants are accepted,
equivalently to their digits-only forms, only by the anomaly-detection
parser `_parse_cycle_start_date` (which additionally accepts time-bearing
shapes). -/
theorem claim_C4_amended_formats :
    (∀ k : String,
      ¬((k.data.length = 4 ∨ k.data.length = 6 ∨ k.data.length = 8)
        ∧ allDigits k.data = true) →
      resolve_date_key k = .error (.valueError dateKeyFormatMsg))
  ∧ parse_cycle_start_date "2024-12" = parse_cycle_start_date "202412"
  ∧ parse_cycle_start_date "2024-12-05" = parse_cycle_start_date "20241205"
  ∧ parse_cycle_start_date "2024-12" = .ok (dtKst 2024 12 1)
  ∧ parse_cycle_start_date "2024-12-05" = .ok (dtKst 2024 12 5) := by
  refine ⟨?_, by decide, by decide, by decide, by decide⟩
  intro k hk
  simp only [resolve_date_key]
  rw [if_pos]
  by_cases hsh : k.data.length = 4 ∨ k.data.length = 6 ∨ k.data.length = 8
  · refine Or.inr ?_
    intro hdig
    exact hk ⟨hsh, hdig⟩
  · exact Or.inl hsh

theorem claim_C4_amended_formats_witness :
    resolve_date_key "20241" = .error (.valueError dateKeyFormatMsg) :=
  claim_C4_amended_formats.1 "20241" (by decide)

theorem date_eq_iff {a : Date} {y m d : Nat} :
    a = ⟨y, m, d⟩ ↔ a.year = y ∧ a.month = m ∧ a.day = d := by
  cases a
  simp [Date.mk.injEq]

/-- Refutation of the "never raises for any input" part of **C5**: for a
Monday instant on `0001-01-01` (the date of `datetime.min`) before the 06:30
boundary, the source evaluates `now_jkt - timedelta(days=1)`, which raises
`OverflowError`; the function does not return the instant's own (or any)
calendar date there. -/
theorem claim_C5_counterexample :
    pyWeekday ⟨1, 1, 1⟩ = 0
  ∧ get_jakarta_shift_business_date ⟨⟨1, 1, 1⟩, 0⟩ = .error .overflowError :=
  ⟨by decide, by decide⟩

/-- **C5 (amended).** `get_jakarta_shift_business_date` returns the calendar
date of the start of the shift window containing the instant: on
Monday–Friday, an instant before the 06:30 first boundary is attributed to
the previous calendar day's final shift (provided the previous day is
representable, i.e. the instant is not on `0001-01-01`), while from 06:30 on
the window start lies on the same calendar day; Saturday instants before
06:30 and all Sunday instants have no window and fall back to the instant's
own calendar date (Saturday windows also start on the same day).  The
function raises only in one case — a Monday-to-Friday instant before 06:30
on `0001-01-01`, where the previous-day computation overflows; on every
other input it returns.  A Monday instant at exactly 06:30 keeps its
calendar date; one second earlier yields the previous calendar date. -/
theorem claim_C5_amended_shift_business_date :
    (∀ t : JktInstant, pyWeekday t.date ≤ 4 → t.tod < todOf 6 30 →
      t.date ≠ ⟨1, 1, 1⟩ →
      get_jakarta_shift_business_date t = .ok (prevDay t.date))
  ∧ (∀ t : JktInstant, pyWeekday t.date ≤ 4 → todOf 6 30 ≤ t.tod →
      get_jakarta_shift_business_date t = .ok t.date)
  ∧ (∀ t : JktInstant, pyWeekday t.date = 5 →
      get_jakarta_shift_business_date t = .ok t.date)
  ∧ (∀ t : JktInstant, pyWeekday t.date = 6 →
      get_jakarta_shift_business_date t = .ok t.date)
  ∧ (∀ (t : JktInstant) (e : PyErr), get_jakarta_shift_business_date t = .error e →
      pyWeekday t.date ≤ 4 ∧ t.tod < todOf 6 30 ∧ t.date = ⟨1, 1, 1⟩
        ∧ e = .overflowError)
  ∧ get_jakarta_shift_business_date ⟨⟨2024, 12, 2⟩, todOf 6 30⟩ = .ok ⟨2024, 12, 2⟩
  ∧ get_jakarta_shift_business_date ⟨⟨2024, 12, 2⟩, todOf 6 30 - 1000000⟩
      = .ok ⟨2024, 12, 1⟩ := by
  refine ⟨?_, ?_, ?_, ?_, ?_, by decide, by decide⟩
  · intro t hw htod hne
    have hne' : ¬(t.date.year = 1 ∧ t.date.month = 1 ∧ t.date.day = 1) := by
      rw [← date_eq_iff]
      exact hne
    have hp : prevDayE t.date = some (prevDay t.date) := by
      unfold prevDayE
      rw [if_neg hne']
    have hcase : pyWeekday t.date = 0 ∨ pyWeekday t.date = 1 ∨
        pyWeekday t.date = 2 ∨ pyWeekday t.date = 3 ∨
        pyWeekday t.date = 4 := by omega
    simp only [get_jakarta_shift_business_date]
    rcases hcase with h | h | h | h | h <;> simp [h, htod, hp]
  · intro t hw htod
    have hntod : ¬ t.tod < todOf 6 30 := by omega
    have hcase : pyWeekday t.date = 0 ∨ pyWeekday t.date = 1 ∨ pyWeekday t.date = 2 ∨
        pyWeekday t.date = 3 ∨ pyWeekday t.date = 4 := by omega
    simp only [get_jakarta_shift_business_date]
    rcases hcase with h | h | h | h | h <;> simp [h, hntod]
  · intro t hw
    simp only [get_jakarta_shift_business_date]
    simp [hw]
    split
    next sd heq =>
      split at heq <;> (injection heq with h2; rw [← h2]; simp)
    next e heq =>
      split at heq <;> cases heq
  · intro t hw
    simp only [get_jakarta_shift_business_date]
    simp [hw]
  · intro t e h
    obtain ⟨⟨y, m, d⟩, tod⟩ := t
    simp only [get_jakarta_shift_business_date] at h
    split at h
    next sd heq => cases h
    next e' heq =>
      injection h with he
      subst he
      split at heq
      next hw =>
        have hwle : pyWeekday ⟨y, m, d⟩ ≤ 4 := by
          rcases hw with h' | h' | h' | h' <;> omega
        split at heq
        next htod =>
          split at heq
          next d' hp => cases heq
          next hp =>
            injection heq with he'
            unfold prevDayE at hp
            split at hp
            next hc =>
              exact ⟨hwle, htod, by simpa [Date.mk.injEq] using hc, he'.symm⟩
            next hc => cases hp
        next htod =>
          split at heq
          · cases heq
          · split at heq
            · cases heq
            · cases heq
      next hw =>
        split at heq
        next hw4 =>
          have hwle : pyWeekday ⟨y, m, d⟩ ≤ 4 := by omega
          split at heq
          next htod =>
            split at heq
            next d' hp => cases heq
            next hp =>
              injection heq with he'
              unfold prevDayE at hp
              split at hp
              next hc =>
                exact ⟨hwle, htod, by simpa [Date.mk.injEq] using hc, he'.symm⟩
              next hc => cases hp
          next htod =>
            split at heq
            · cases heq
            · split at heq
              · cases heq
              · cases heq
        next hw4 =>
          split at heq
          next hw5 =>
            split at heq
            · cases heq
            · split at heq
              · cases heq
              · split at heq
                · cases heq
                · cases heq
          next hw5 => cases heq

theorem claim_C5_amended_shift_business_date_witness :
    get_jakarta_shift_business_date ⟨⟨2024, 12, 3⟩, 0⟩ = .ok ⟨2024, 12, 2⟩
  ∧ get_jakarta_shift_business_date ⟨⟨2024, 12, 3⟩, todOf 12 0⟩ = .ok ⟨2024, 12, 3⟩
  ∧ get_jakarta_shift_business_date ⟨⟨2024, 12, 7⟩, todOf 3 0⟩ = .ok ⟨2024, 12, 7⟩
  ∧ get_jakarta_shift_business_date ⟨⟨2024, 12, 8⟩, todOf 12 0⟩ = .ok ⟨2024, 12, 8⟩
  ∧ (pyWeekday (⟨⟨1, 1, 1⟩, 0⟩ : JktInstant).date ≤ 4 ∧ (0 : Nat) < todOf 6 30
      ∧ (⟨⟨1, 1, 1⟩, 0⟩ : JktInstant).date = ⟨1, 1, 1⟩
      ∧ PyErr.overflowError = PyErr.overflowError) :=
  ⟨by
    have h := claim_C5_amended_shift_business_date.1 ⟨⟨2024, 12, 3⟩, 0⟩
      (by decide) (by decide) (by decide)
    simpa using h,
   claim_C5_amended_shift_business_date.2.1 ⟨⟨2024, 12, 3⟩, todOf 12 0⟩
      (by decide) (by decide),
   claim_C5_amended_shift_business_date.2.2.1 ⟨⟨2024, 12, 7⟩, todOf 3 0⟩ (by decide),
   claim_C5_amended_shift_business_date.2.2.2.1 ⟨⟨2024, 12, 8⟩, todOf 12 0⟩ (by decide),
   claim_C5_amended_shift_business_date.2.2.2.2.1 ⟨⟨1, 1, 1⟩, 0⟩ .overflowError
      (by decide)⟩

theorem mem_syncEngines {urls : List (String × String)} {a u : String} :
    (a, u) ∈ (provisionEngines urls).2 ↔
      (a, u) ∈ urls ∧ a = "cmms" ∧ oracleThickUrl u = true := by
  induction urls with
  | nil => simp [provisionEngines]
  | cons hd tl ih =>
    obtain ⟨b, v⟩ := hd
    simp only [provisionEngines]
    split
    next hcond =>
      simp only [Bool.and_eq_true, decide_eq_true_eq] at hcond
      obtain ⟨rfl, hv⟩ := hcond
      simp only [List.mem_cons, ih, Prod.mk.injEq]
      constructor
      · rintro (⟨rfl, rfl⟩ | ⟨hm, rfl, ht⟩)
        · exact ⟨Or.inl ⟨rfl, rfl⟩, rfl, hv⟩
        · exact ⟨Or.inr hm, rfl, ht⟩
      · rintro ⟨h | hm, rfl, ht⟩
        · exact Or.inl h
        · exact Or.inr ⟨hm, rfl, ht⟩
    next hcond =>
      simp only [Bool.and_eq_true, decide_eq_true_eq] at hcond
      simp only [List.mem_cons, ih, Prod.mk.injEq]
      constructor
      · rintro ⟨hm, rfl, ht⟩
        exact ⟨Or.inr hm, rfl, ht⟩
      · rintro ⟨h | hm, rfl, ht⟩
        · obtain ⟨rfl, rfl⟩ := h
          exact absurd ⟨rfl, ht⟩ hcond
        · exact ⟨hm, rfl, ht⟩

theorem mem_asyncEngines {urls : List (String × String)} {a u : String} :
    (a, u) ∈ (provisionEngines urls).1 ↔
      (a, u) ∈ urls ∧ ¬(a = "cmms" ∧ oracleThickUrl u = true) := by
  induction urls with
  | nil => simp [provisionEngines]
  | cons hd tl ih =>
    obtain ⟨b, v⟩ := hd
    simp only [provisionEngines]
    split
    next hcond =>
      simp only [Bool.and_eq_true, decide_eq_true_eq] at hcond
      obtain ⟨rfl, hv⟩ := hcond
      simp only [List.mem_cons, ih, Prod.mk.injEq]
      constructor
      · rintro ⟨hm, hns⟩
        exact ⟨Or.inr hm, hns⟩
      · rintro ⟨h | hm, hns⟩
        · obtain ⟨rfl, rfl⟩ := h
          exact absurd ⟨rfl, hv⟩ hns
        · exact ⟨hm, hns⟩
    next hcond =>
      simp only [Bool.and_eq_true, decide_eq_true_eq] at hcond
      simp only [List.mem_cons, ih, Prod.mk.injEq]
      constructor
      · rintro (⟨rfl, rfl⟩ | ⟨hm, hns⟩)
        · exact ⟨Or.inl ⟨rfl, rfl⟩, hcond⟩
        · exact ⟨Or.inr hm, hns⟩
      · rintro ⟨h | hm, hns⟩
        · obtain ⟨rfl, rfl⟩ := h
          exact Or.inl ⟨rfl, rfl⟩
        · exact Or.inr ⟨hm, hns⟩

/-- **C7.** A registry entry `(alias, url)` lands in the synchronous engine
map (`SYNC_ENGINES`) exactly when the alias is the fixed `"cmms"` alias *and*
the URL starts (case-insensitively) with the `oracle+oracledb` thick-driver
scheme; every other entry — unknown aliases included, and a `cmms` entry
whose URL does not carry that scheme — lands in the asynchronous map
(`ASYNC_ENGINES`). -/
theorem claim_C7_sync_iff_cmms_oracle_thick :
    ∀ (urls : List (String × String)) (a u : String),
      ((a, u) ∈ (provisionEngines urls).2 ↔
        (a, u) ∈ urls ∧ a = "cmms" ∧ oracleThickUrl u = true)
    ∧ ((a, u) ∈ (provisionEngines urls).1 ↔
        (a, u) ∈ urls ∧ ¬(a = "cmms" ∧ oracleThickUrl u = true)) :=
  fun _ _ _ => ⟨mem_syncEngines, mem_asyncEngines⟩

theorem claim_C7_sync_iff_cmms_oracle_thick_witness :
    ("cmms", "oracle+oracledb://u")
        ∈ (provisionEngines
            [("ip04", "mysql+aiomysql://a"), ("cmms", "oracle+oracledb://u")]).2
  ∧ ("cmms", "mysql+aiomysql://u")
        ∈ (provisionEngines [("cmms", "mysql+aiomysql://u")]).1
  ∧ ("ip04", "mysql+aiomysql://a")
        ∈ (provisionEngines
            [("ip04", "mysql+aiomysql://a"), ("cmms", "oracle+oracledb://u")]).1 :=
  ⟨(claim_C7_sync_iff_cmms_oracle_thick _ "cmms" "oracle+oracledb://u").1.mpr
      ⟨by decide, rfl, by decide⟩,
   (claim_C7_sync_iff_cmms_oracle_thick _ "cmms" "mysql+aiomysql://u").2.mpr
      ⟨by decide, by decide⟩,
   (claim_C7_sync_iff_cmms_oracle_thick _ "ip04" "mysql+aiomysql://a").2.mpr
      ⟨by decide, by decide⟩⟩

theorem provisionEngines_async_all {urls : List (String × String)}
    (h : ∀ p ∈ urls, ¬(p.1 = "cmms" ∧ oracleThickUrl p.2 = true)) :
    (provisionEngines urls).1 = urls := by
  induction urls with
  | nil => rfl
  | cons hd tl ih =>
    obtain ⟨b, v⟩ := hd
    simp only [provisionEngines]
    split
    next hcond =>
      simp only [Bool.and_eq_true, decide_eq_true_eq] at hcond
      exact absurd hcond (h (b, v) (List.mem_cons_self _ _))
    next hcond =>
      simp only [List.cons.injEq, true_and]
      exact ih fun p hp => h p (List.mem_cons_of_mem _ hp)

/-- Refutation of the "(all registered aliases)" part of **C9**: with the
registry `[ip04, cmms]` (cmms backed by the Oracle thick driver), the
unknown-alias error lists only `["ip04"]` — the aliases with an asynchronous
session factory — omitting the registered alias `cmms`. -/
theorem claim_C9_counterexample :
    resolve_db_alias [("ip04", "mysql+aiomysql://a"), ("cmms", "oracle+oracledb://o")]
        (some "doesnotexist")
      = .error (.unknownAlias "doesnotexist" ["ip04"])
  ∧ "cmms" ∈ ([("ip04", "mysql+aiomysql://a"),
        ("cmms", "oracle+oracledb://o")].map Prod.fst)
  ∧ "cmms" ∉ (["ip04"] : List String) := ⟨by decide, by decide, by decide⟩

/-- **C9 (amended).** `resolve_db_alias` with no alias returns the default
alias (the first alias in discovery order), so `resolve(None)` equals
`resolve(default_alias())`; a non-empty alias not present in the registry
fails with the unknown-alias error rather than silently substituting the
default, and that error lists the aliases that have asynchronous session
factories — which are exactly the registered aliases whenever no entry is
provisioned synchronously (in particular whenever no thick-mode `cmms` entry
exists). -/
theorem claim_C9_amended_alias_resolution :
    (∀ urls : List (String × String),
      resolve_db_alias urls none = resolve_db_alias urls (some (defaultDbAlias urls)))
  ∧ (∀ (urls : List (String × String)) (a : String), a ≠ "" →
      a ∉ urls.map Prod.fst →
      resolve_db_alias urls (some a)
        = .error (.unknownAlias a (available_databases urls)))
  ∧ (∀ urls : List (String × String),
      (∀ p ∈ urls, ¬(p.1 = "cmms" ∧ oracleThickUrl p.2 = true)) →
      available_databases urls = urls.map Prod.fst) := by
  refine ⟨?_, ?_, ?_⟩
  · intro urls
    simp only [resolve_db_alias, ite_self]
  · intro urls a ha hmem
    have hc : (urls.map Prod.fst).contains a = false := by
      simpa using hmem
    simp only [resolve_db_alias]
    rw [if_pos ha, hc]
    simp
  · intro urls h
    unfold available_databases
    rw [provisionEngines_async_all h]

theorem claim_C9_amended_alias_resolution_witness :
    resolve_db_alias [("ip04", "mysql+aiomysql://a")] none
        = resolve_db_alias [("ip04", "mysql+aiomysql://a")]
            (some (defaultDbAlias [("ip04", "mysql+aiomysql://a")]))
  ∧ resolve_db_alias [("ip04", "mysql+aiomysql://a")] (some "nope")
        = .error (.unknownAlias "nope"
            (available_databases [("ip04", "mysql+aiomysql://a")]))
  ∧ available_databases [("ip04", "mysql+aiomysql://a")] = ["ip04"] :=
  ⟨claim_C9_amended_alias_resolution.1 [("ip04", "mysql+aiomysql://a")],
   claim_C9_amended_alias_resolution.2.1 [("ip04", "mysql+aiomysql://a")] "nope"
      (by decide) (by decide),
   by
    have h := claim_C9_amended_alias_resolution.2.2
      [("ip04", "mysql+aiomysql://a")] (by decide)
    simpa using h⟩

theorem withKst_tz {o : Option PyDateTime} {d : PyDateTime}
    (h : withKst o = some d) : d.tz = some defaultTz := by
  unfold withKst at h
  cases o with
  | some x =>
    simp only [Option.map_some'] at h
    injection h with h
    rw [← h]
  | none => cases h

theorem guardKst_tz {c : Prop} [Decidable c] {o : Option PyDateTime} {d : PyDateTime}
    (h : (if c then withKst o else none) = some d) : d.tz = some defaultTz := by
  split at h
  · exact withKst_tz h
  · cases h

/-- **C10.** The human-entered timestamp parser `_parse_cycle_start_date`
additionally accepts `HH:MM` and `HH:MM:SS` suffixed tokens and free-form
ISO-8601 with an explicit offset; and every accepted token that carries no
explicit timezone (i.e. whose ISO parse, when it succeeds, is naive — the
`strptime` fallback shapes carry none by construction) is stamped with the
fixed local zone `DEFAULT_TZ` (`Asia/Seoul`), never UTC. -/
theorem claim_C10_timestamp_variant_tz :
    parse_cycle_start_date "2024-12-05 14:30"
      = .ok ⟨2024, 12, 5, 14, 30, 0, 0, some defaultTz⟩
  ∧ parse_cycle_start_date "2024-12-05 14:30:00"
      = .ok ⟨2024, 12, 5, 14, 30, 0, 0, some defaultTz⟩
  ∧ parse_cycle_start_date "2024-12-05T14:30:00+07:00"
      = .ok ⟨2024, 12, 5, 14, 30, 0, 0, some (.utcOffset 25200)⟩
  ∧ (∀ (s : String) (dt : PyDateTime), parse_cycle_start_date s = .ok dt →
      (∀ d0 : PyDateTime,
        fromisoformat (String.mk (replaceCL "Z".data "+00:00".data (stripCL s.data)))
          = some d0 → d0.tz = none) →
      dt.tz = some defaultTz) := by
  refine ⟨by decide, by decide, by decide, ?_⟩
  intro s dt hok hnaive
  simp only [parse_cycle_start_date] at hok
  split at hok
  next d0 hiso =>
    have hn := hnaive d0 hiso
    simp only [hn, Option.isNone_none, if_true] at hok
    injection hok with h
    rw [← h]
  next hiso =>
    split at hok
    next d heq =>
      injection hok with hd
      exact hd ▸ guardKst_tz heq
    split at hok
    next d heq =>
      injection hok with hd
      exact hd ▸ guardKst_tz heq
    split at hok
    next d heq =>
      injection hok with hd
      exact hd ▸ guardKst_tz heq
    split at hok
    next d heq =>
      injection hok with hd
      exact hd ▸ guardKst_tz heq
    split at hok
    next d heq =>
      injection hok with hd
      exact hd ▸ guardKst_tz heq
    split at hok
    next d heq =>
      injection hok with hd
      exact hd ▸ guardKst_tz heq
    split at hok
    next d heq =>
      injection hok with hd
      exact hd ▸ guardKst_tz heq
    split at hok
    next d heq =>
      injection hok with hd
      exact hd ▸ guardKst_tz heq
    split at hok
    next d heq =>
      injection hok with hd
      exact hd ▸ guardKst_tz heq
    next => simp at hok
theorem claim_C10_timestamp_variant_tz_witness :
    ({ year := 2024, month := 12, day := 5, hour := 14, minute := 30, second := 0,
        micro := 0, tz := some defaultTz } : PyDateTime).tz = some defaultTz :=
  claim_C10_timestamp_variant_tz.2.2.2 "20241205 14:30"
    ⟨2024, 12, 5, 14, 30, 0, 0, some defaultTz⟩ (by decide)
    (fun d0 h => by
      rw [show fromisoformat (String.mk (replaceCL "Z".data "+00:00".data
          (stripCL "20241205 14:30".data)))
        = some ⟨2024, 12, 5, 14, 30, 0, 0, none⟩ from by decide] at h
      injection h with h
      rw [← h])

theorem odInsert_mem_keys_self (l : List (String × String)) (a v : String) :
    a ∈ (odInsert l a v).map Prod.fst := by
  induction l with
  | nil => simp [odInsert]
  | cons hd tl ih =>
    obtain ⟨b, w⟩ := hd
    simp only [odInsert]
    split
    next hb => simp [hb]
    next hb => simpa using Or.inr (by simpa using ih)

theorem odInsert_mem_keys_of_mem {l : List (String × String)} {b : String}
    (a v : String) (h : b ∈ l.map Prod.fst) : b ∈ (odInsert l a v).map Prod.fst := by
  induction l with
  | nil => cases h
  | cons hd tl ih =>
    obtain ⟨c, w⟩ := hd
    simp only [List.map_cons, List.mem_cons] at h
    simp only [odInsert]
    split
    next hc =>
      rcases h with h | h
      · simp [h]
      · simpa using Or.inr h
    next hc =>
      rcases h with h | h
      · simp [h]
      · simpa using Or.inr (by simpa using ih h)

theorem discoverStep_mem_keys {urls : List (String × String)} {b : String}
    (kv : String × String) (h : b ∈ urls.map Prod.fst) :
    b ∈ (discoverStep urls kv).map Prod.fst := by
  unfold discoverStep
  split
  · exact odInsert_mem_keys_of_mem _ _ h
  · exact h

theorem foldl_discoverStep_mem_keys {b : String} (env : List (String × String)) :
    ∀ acc : List (String × String), b ∈ acc.map Prod.fst →
      b ∈ (env.foldl discoverStep acc).map Prod.fst := by
  induction env with
  | nil => intro acc h; simpa using h
  | cons hd tl ih =>
    intro acc h
    simpa [List.foldl_cons] using ih (discoverStep acc hd) (discoverStep_mem_keys hd h)

theorem foldl_discoverStep_adds {k v a : String} (env : List (String × String))
    (hkv : (k, v) ∈ env) (ha : discoverAlias k v = some a) :
    ∀ acc : List (String × String), a ∈ (env.foldl discoverStep acc).map Prod.fst := by
  induction env with
  | nil => cases hkv
  | cons hd tl ih =>
    intro acc
    rcases List.mem_cons.mp hkv with h | h
    · subst h
      refine foldl_discoverStep_mem_keys tl (discoverStep acc (k, v)) ?_
      unfold discoverStep
      rw [ha]
      exact odInsert_mem_keys_self acc a v
    · exact ih h (discoverStep acc hd)

theorem addFixedUrl_mem_keys {l : List (String × String)} {b : String}
    (a : String) (u : Option String) (h : b ∈ l.map Prod.fst) :
    b ∈ (addFixedUrl l a u).map Prod.fst := by
  cases u with
  | some w =>
    simp only [addFixedUrl]
    split
    · exact odInsert_mem_keys_of_mem _ _ h
    · exact h
  | none => simpa [addFixedUrl] using h

theorem odInsert_append {l : List (String × String)} {a : String} (v : String)
    (h : a ∉ l.map Prod.fst) : odInsert l a v = l ++ [(a, v)] := by
  induction l with
  | nil => rfl
  | cons hd tl ih =>
    obtain ⟨b, w⟩ := hd
    simp only [List.map_cons, List.mem_cons] at h
    push_neg at h
    simp only [odInsert]
    rw [if_neg (by exact fun hba => h.1 hba.symm)]
    simp only [List.cons_append, List.cons.injEq, true_and]
    exact ih h.2

/-- Refutation of **C8** as stated.  The CKP pattern is matched
case-insensitively, but the alias is produced by a *case-sensitive*
`key.replace('_DATABASE_URL', '')` on the original key, so the lower-case
environment key `ckp_chiller_database_url` yields the alias
`ckp_chiller_database_url` — the `_database_url` suffix survives — instead of
the claimed `ckp_chiller`.  Also, only *empty* values are skipped
(`if not value`): a blank, whitespace-only value is kept. -/
theorem claim_C8_counterexample :
    database_urls [("ckp_chiller_database_url", "postgresql+asyncpg://d")] none none
      = [("ckp_chiller_database_url", "postgresql+asyncpg://d")]
  ∧ "ckp_chiller"
      ∉ (database_urls [("ckp_chiller_database_url", "postgresql+asyncpg://d")]
          none none).map Prod.fst
  ∧ database_urls [("IP04_DATABASE_URL", " ")] none none = [("ip04", " ")] :=
  ⟨by decide, by decide, by decide⟩

/-- **C8 (amended).** Discovery matches configuration keys case-insensitively
and every alias that a pattern produces reaches the resulting mapping
(entries with empty values are skipped); the numbered patterns produce the
lower-case aliases `ip<digits>`/`banb<digits>`/`ctm<digits>` for any casing of
the key, while a CKP key's alias is the key with its (exact, upper-case)
`_DATABASE_URL` occurrences removed and then lower-cased — equal to
`ckp_<name>` when the key spells the suffix in upper case; and the two
fixed-name entries (`montrg`, then `cmms`) are appended after all
pattern-matched entries. -/
theorem claim_C8_amended_discovery :
    (∀ (env : List (String × String)) (montrgUrl cmmsUrl : Option String)
        (k v a : String), (k, v) ∈ env → discoverAlias k v = some a →
      a ∈ (database_urls env montrgUrl cmmsUrl).map Prod.fst)
  ∧ (∀ k : String, discoverAlias k "" = none)
  ∧ (∀ (env : List (String × String)) (mu cu : String), mu ≠ "" → cu ≠ "" →
      "montrg" ∉ (env.foldl discoverStep []).map Prod.fst →
      "cmms" ∉ (env.foldl discoverStep []).map Prod.fst →
      database_urls env (some mu) (some cu)
        = env.foldl discoverStep [] ++ [("montrg", mu), ("cmms", cu)])
  ∧ (discoverAlias "ip04_database_url" "u" = some "ip04"
      ∧ discoverAlias "BANB01_DATABASE_URL" "u" = some "banb01"
      ∧ discoverAlias "Ctm01_Database_Url" "u" = some "ctm01"
      ∧ discoverAlias "CKP_CHILLER_DATABASE_URL" "u" = some "ckp_chiller")
  ∧ database_urls
      [("IP04_DATABASE_URL", "mysql+aiomysql://a"),
       ("banb01_database_url", "mysql+aiomysql://b"),
       ("Ctm01_Database_Url", "mysql+aiomysql://c"),
       ("CKP_CHILLER_DATABASE_URL", "postgresql+asyncpg://d"),
       ("IP05_DATABASE_URL", ""),
       ("PATH", "/usr/bin")]
      (some "postgresql+asyncpg://m") (some "oracle+oracledb://o")
      = [("ip04", "mysql+aiomysql://a"), ("banb01", "mysql+aiomysql://b"),
         ("ctm01", "mysql+aiomysql://c"), ("ckp_chiller", "postgresql+asyncpg://d"),
         ("montrg", "postgresql+asyncpg://m"), ("cmms", "oracle+oracledb://o")] := by
  refine ⟨?_, ?_, ?_, ⟨by decide, by decide, by decide, by decide⟩, by decide⟩
  · intro env montrgUrl cmmsUrl k v a hkv ha
    unfold database_urls
    exact addFixedUrl_mem_keys _ _ (addFixedUrl_mem_keys _ _
      (foldl_discoverStep_adds env hkv ha []))
  · intro k
    unfold discoverAlias
    simp
  · intro env mu cu hmu hcu hm hc
    simp only [database_urls, addFixedUrl]
    rw [if_pos hcu, if_pos hmu, odInsert_append mu hm, odInsert_append cu]
    · simp
    · simp only [List.map_append, List.map_cons, List.map_nil, List.mem_append]
      push_neg
      exact ⟨hc, by decide⟩

theorem claim_C8_amended_discovery_witness :
    "ip07" ∈ (database_urls [("ip07_database_url", "mysql+aiomysql://x")]
        none none).map Prod.fst
  ∧ database_urls [("JUNK", "zzz")] (some "mm") (some "oo")
      = [("montrg", "mm"), ("cmms", "oo")] :=
  ⟨claim_C8_amended_discovery.1 [("ip07_database_url", "mysql+aiomysql://x")]
      none none "ip07_database_url" "mysql+aiomysql://x" "ip07"
      (by decide) (by decide),
   by
    have h := claim_C8_amended_discovery.2.2.1 [("JUNK", "zzz")] "mm" "oo"
      (by decide) (by decide) (by decide) (by decide)
    simpa using h⟩

end UnifiedMontrg
